import Mathlib

/-!
Shallow embedding of `src/pal/pal_windows.h` (the snmalloc Windows Platform
Abstraction Layer) and proofs about it.

The PAL touches the OS through a handful of virtual-memory primitives
(`VirtualAlloc`, `VirtualAlloc2FromApp`, `VirtualFree`,
`QueryMemoryResourceNotification`, `CreateMemoryResourceNotification`,
`RegisterWaitForSingleObject`) and through `memset`.  Those primitives are
not part of the repository; they are modelled here by their documented
Windows semantics: commit backs decommitted pages with zeroed physical
memory, decommit drops the backing while keeping the range reserved, and
fallible calls are oracles returning an optional result.
-/

namespace PalWindows

/-- The OS page size is a parameter of the development (`OS_PAGE_SIZE` comes
from `mem/allocconfig.h`, outside the embedded file); every statement that
needs it takes it as an argument together with a positivity hypothesis. -/
def OSPage := Nat

/-- Modelled from the spec: the alignment-check predicate consumed from the
external `ds` headers (`is_aligned_block<OS_PAGE_SIZE>(p, size)`).  The spec
describes it as requiring the base address and the size in bytes to both be
multiples of the page size. -/
def is_aligned_block (page p size : Nat) : Bool :=
  decide (p % page = 0 ∧ size % page = 0)

/-- Whether byte address `a` lies in the byte range `[p, p + size)`. -/
def inRange (p size a : Nat) : Bool :=
  decide (p ≤ a ∧ a < p + size)

/-- Whether the page with index `pg` starts inside the byte range
`[p, p + size)`.  For a page-aligned range this is exactly the set of pages
the range consists of. -/
def pageCovered (page p size pg : Nat) : Bool :=
  decide (p ≤ pg * page ∧ pg * page < p + size)

/-- Observable memory state: a commit flag per page index and a byte content
map.  Content of a decommitted page is retained in the model but a commit
overwrites it with zeros, matching Windows semantics where the old backing is
gone and recommit provides demand-zeroed pages. -/
@[ext]
structure Mem where
  committed : Nat → Bool
  content : Nat → Nat

/-- `VirtualFree(p, size, MEM_DECOMMIT)`: every page of the range loses its
physical backing; the address range stays reserved. -/
def decommit (page : Nat) (m : Mem) (p size : Nat) : Mem :=
  { committed := fun pg => if pageCovered page p size pg then false else m.committed pg
    content := m.content }

/-- `VirtualAlloc(p, size, MEM_COMMIT, PAGE_READWRITE)`: every page of the
range becomes committed.  A page that was decommitted is backed by fresh
zeroed memory; a page that was already committed keeps its content. -/
def commit (page : Nat) (m : Mem) (p size : Nat) : Mem :=
  { committed := fun pg => if pageCovered page p size pg then true else m.committed pg
    content := fun a =>
      if pageCovered page p size (a / page) && !(m.committed (a / page)) then 0
      else m.content a }

/-- `memset(p, 0, size)`: byte-fill of the range with zeros. -/
def memset0 (m : Mem) (p size : Nat) : Mem :=
  { committed := m.committed
    content := fun a => if inRange p size a then 0 else m.content a }

/-- The `ZeroMem` policy argument of `notify_using` (from the external
allocator headers): whether the caller requires zeroed memory. -/
inductive ZeroMem where
  | NoZero
  | YesZero
deriving DecidableEq

/-- The entry assertion of `notify_not_using`:
`assert(is_aligned_block<OS_PAGE_SIZE>(p, size))`, unconditional. -/
def notifyNotUsingAssert (page p size : Nat) : Bool :=
  is_aligned_block page p size

/-- The entry assertion of `notify_using`:
`assert(is_aligned_block<OS_PAGE_SIZE>(p, size) || (zero_mem == NoZero))`. -/
def notifyUsingAssert (page : Nat) (zero_mem : ZeroMem) (p size : Nat) : Bool :=
  is_aligned_block page p size || (zero_mem == ZeroMem.NoZero)

/-- `notify_not_using(p, size)`: decommit the range. -/
def notify_not_using (page : Nat) (m : Mem) (p size : Nat) : Mem :=
  decommit page m p size

/-- `notify_using<zero_mem>(p, size)`: commit the range.  The template
argument only affects the entry assertion, not the OS call. -/
def notify_using (page : Nat) (_zero_mem : ZeroMem) (m : Mem) (p size : Nat) : Mem :=
  commit page m p size

/-- Which branch of `zero` ran. -/
inductive ZeroPath where
  | decommitRecommit
  | byteFill
deriving DecidableEq

/-- Result of running `zero`: the memory after the call, the branch taken,
and whether the debug assertion inside the first branch held (`true` when the
branch was not taken, since that assertion is not reached). -/
structure ZeroResult where
  mem : Mem
  path : ZeroPath
  assertOk : Bool

/-- `zero<page_aligned>(p, size)` from the source: if the template hint is
set or the range is page-aligned, decommit then recommit (asserting
alignment); otherwise `memset` the range to zero. -/
def zero (page : Nat) (page_aligned : Bool) (m : Mem) (p size : Nat) : ZeroResult :=
  if page_aligned || is_aligned_block page p size then
    { mem := notify_using page ZeroMem.YesZero (notify_not_using page m p size) p size
      path := ZeroPath.decommitRecommit
      assertOk := is_aligned_block page p size }
  else
    { mem := memset0 m p size
      path := ZeroPath.byteFill
      assertOk := true }

/-- Modelled from the spec: the Zero Filler contract, "all-zero bytes over
exactly `[base, base+size)`", everything else (content outside the range and
the commit map) unchanged. -/
def zeroSpec (m : Mem) (p size : Nat) : Mem :=
  { committed := m.committed
    content := fun a => if inRange p size a then 0 else m.content a }

/-! ### Page arithmetic -/

theorem lt_next_page (a page : Nat) (hpage : 0 < page) :
    a < (a / page + 1) * page := by
  have h1 := Nat.div_add_mod a page
  have h2 := Nat.mod_lt a hpage
  calc a = page * (a / page) + a % page := h1.symm
    _ < page * (a / page) + page := by omega
    _ = (a / page + 1) * page := by ring

/-- For a page-aligned range, a byte address lies in the range exactly when
its page is one of the range's pages. -/
theorem inRange_eq_pageCovered (page p size a : Nat) (hpage : 0 < page)
    (hal : is_aligned_block page p size = true) :
    inRange p size a = pageCovered page p size (a / page) := by
  have hparts : p % page = 0 ∧ size % page = 0 := by
    simpa [is_aligned_block] using hal
  have hp : page ∣ p := Nat.dvd_of_mod_eq_zero hparts.1
  have hs : page ∣ size := Nat.dvd_of_mod_eq_zero hparts.2
  have hps : page ∣ (p + size) := Nat.dvd_add hp hs
  have hqa : a / page * page ≤ a := Nat.div_mul_le_self a page
  unfold inRange pageCovered
  rw [decide_eq_decide]
  constructor
  · rintro ⟨h1, h2⟩
    constructor
    · have hdiv : p / page ≤ a / page := Nat.div_le_div_right h1
      have hpe : p / page * page = p := Nat.div_mul_cancel hp
      calc p = p / page * page := hpe.symm
        _ ≤ a / page * page := Nat.mul_le_mul_right page hdiv
    · exact Nat.lt_of_le_of_lt hqa h2
  · rintro ⟨h1, h2⟩
    constructor
    · exact Nat.le_trans h1 hqa
    · obtain ⟨k, hk⟩ := hps
      rw [hk] at h2 ⊢
      have h3 : page * (a / page) < page * k := by
        calc page * (a / page) = a / page * page := Nat.mul_comm page (a / page)
          _ < page * k := h2
      have hlt : a / page < k := Nat.lt_of_mul_lt_mul_left h3
      calc a < (a / page + 1) * page := lt_next_page a page hpage
        _ ≤ k * page := Nat.mul_le_mul_right page hlt
        _ = page * k := Nat.mul_comm k page

/-! ### The decommit/recommit path -/

/-- Content after decommit-then-commit of a page-aligned range: zero on the
range, untouched elsewhere. -/
theorem commit_decommit_content (page p size : Nat) (m : Mem) (hpage : 0 < page)
    (hal : is_aligned_block page p size = true) (a : Nat) :
    (commit page (decommit page m p size) p size).content a =
      (zeroSpec m p size).content a := by
  have hiff := inRange_eq_pageCovered page p size a hpage hal
  simp only [commit, decommit, zeroSpec]
  by_cases hB : pageCovered page p size (a / page) = true
  · simp [hB, hiff]
  · have hB' : pageCovered page p size (a / page) = false := by
      simpa using hB
    simp [hB', hiff]

/-- Commit map after decommit-then-commit: the pages of the range end up
committed, the rest are untouched. -/
theorem commit_decommit_committed (page p size : Nat) (m : Mem) (pg : Nat) :
    (commit page (decommit page m p size) p size).committed pg =
      if pageCovered page p size pg then true else m.committed pg := by
  by_cases hB : pageCovered page p size pg = true
  · simp [commit, decommit, hB]
  · have hB' : pageCovered page p size pg = false := by simpa using hB
    simp [commit, decommit, hB']

/-- A concrete memory with every page committed and nonzero content, used to
instantiate theorems with hypotheses. -/
def memAllCommitted : Mem :=
  { committed := fun _ => true
    content := fun a => a + 7 }

/-- C1: for every region, `zero` produces all-zero bytes over exactly
`[p, p + size)` and changes nothing else, and the page-aligned
decommit/recommit path and the unaligned byte-fill path are observably
equivalent to the caller: each path, under its guard, yields exactly the
memory described by the spec-side `zeroSpec`. -/
theorem zero_paths_agree_with_spec (page p size : Nat) (m : Mem)
    (hpage : 0 < page)
    (hcom : ∀ pg, pageCovered page p size pg = true → m.committed pg = true) :
    (is_aligned_block page p size = true →
      ∀ hint : Bool, (zero page hint m p size).mem = zeroSpec m p size)
    ∧ (is_aligned_block page p size = false →
      (zero page false m p size).mem = zeroSpec m p size) := by
  constructor
  · intro hal hint
    have hz : (zero page hint m p size).mem =
        commit page (decommit page m p size) p size := by
      simp [zero, hal, notify_using, notify_not_using]
    rw [hz]
    ext x
    · rw [commit_decommit_committed]
      by_cases hB : pageCovered page p size x = true
      · simp [hB, hcom x hB, zeroSpec]
      · have hB' : pageCovered page p size x = false := by simpa using hB
        simp [hB', zeroSpec]
    · exact commit_decommit_content page p size m hpage hal x
  · intro hal
    simp [zero, hal, memset0, zeroSpec]

/-- Witness for C1 at page size 4, the aligned region `[8, 16)` and a fully
committed memory. -/
theorem zero_paths_agree_with_spec_witness :
    0 < 4 ∧
    ((is_aligned_block 4 8 8 = true →
      ∀ hint : Bool, (zero 4 hint memAllCommitted 8 8).mem = zeroSpec memAllCommitted 8 8)
    ∧ (is_aligned_block 4 8 8 = false →
      (zero 4 false memAllCommitted 8 8).mem = zeroSpec memAllCommitted 8 8)) :=
  ⟨by decide, zero_paths_agree_with_spec 4 8 8 memAllCommitted (by decide) (fun _ _ => rfl)⟩

/-- C8: instantiating `zero` with the `page_aligned` hint `true` on a region
that is not page-aligned short-circuits the runtime alignment check: the
decommit/recommit path is taken, the debug assertion fails, and the function
never falls back to the byte-fill path, so the misaligned region reaches the
decommit operation. -/
theorem zero_hint_shortcircuits_check (page p size : Nat) (m : Mem)
    (hal : is_aligned_block page p size = false) :
    (zero page true m p size).path = ZeroPath.decommitRecommit
    ∧ (zero page true m p size).assertOk = false
    ∧ (zero page true m p size).mem =
        commit page (decommit page m p size) p size := by
  refine ⟨?_, ?_, ?_⟩ <;>
    simp [zero, hal, notify_using, notify_not_using]

/-- Witness for C8 at the misaligned region `[1, 2)` with page size 4096. -/
theorem zero_hint_shortcircuits_check_witness :
    is_aligned_block 4096 1 1 = false
    ∧ ((zero 4096 true memAllCommitted 1 1).path = ZeroPath.decommitRecommit
      ∧ (zero 4096 true memAllCommitted 1 1).assertOk = false
      ∧ (zero 4096 true memAllCommitted 1 1).mem =
          commit 4096 (decommit 4096 memAllCommitted 1 1) 1 1) :=
  ⟨by decide, zero_hint_shortcircuits_check 4096 1 1 memAllCommitted (by decide)⟩

/-- C6: the entry assertions of the two Commit Controller operations are
asymmetric: the assertion of `notify_not_using` holds exactly when the region
is page-aligned, on every call; the assertion of `notify_using` holds exactly
when the region is page-aligned or the zero policy is `NoZero`, so a `NoZero`
call on an unaligned region is permitted and its assertion still holds, while
the same unaligned region fails the `notify_not_using` assertion. -/
theorem notify_asserts_asymmetric :
    (∀ page p size, notifyUsingAssert page ZeroMem.NoZero p size = true)
    ∧ (∀ page p size, notifyNotUsingAssert page p size = is_aligned_block page p size)
    ∧ (∀ page p size,
        notifyUsingAssert page ZeroMem.YesZero p size = is_aligned_block page p size)
    ∧ (notifyNotUsingAssert 4096 4096 12 = false
      ∧ notifyUsingAssert 4096 ZeroMem.NoZero 4096 12 = true
      ∧ notifyUsingAssert 4096 ZeroMem.YesZero 4096 12 = false) := by
  refine ⟨?_, ?_, ?_, ?_⟩
  · intro page p size
    simp [notifyUsingAssert]
  · intro page p size
    rfl
  · intro page p size
    simp [notifyUsingAssert]
  · exact ⟨by decide, by decide, by decide⟩

/-! ### The one-time low-memory subscription -/

/-- Outcome of one OS subscription attempt
(`CreateMemoryResourceNotification` plus `RegisterWaitForSingleObject`):
whether the calls succeeded.  The constructor ignores this value. -/
structure SubscribeOutcome where
  success : Bool
deriving DecidableEq

/-- The process-wide static state of `PALWindows` relevant to registration:
the `registered_for_notifications` atomic flag, the number of OS subscription
attempts performed so far, and whether one of them succeeded. -/
structure PALState where
  registered : Bool
  subAttempts : Nat
  subscribed : Bool
deriving DecidableEq

/-- Process start: static initialisation of `registered_for_notifications`
to `false`, no subscription performed. -/
def initState : PALState :=
  { registered := false, subAttempts := 0, subscribed := false }

/-- The `PALWindows` constructor: `registered_for_notifications.exchange(true)`
sets the flag unconditionally; only the caller that observed `false` performs
the OS subscription calls.  The flag is never cleared, even when the
subscription calls fail. -/
def ctor (os : SubscribeOutcome) (s : PALState) : PALState :=
  if s.registered then s
  else { registered := true
         subAttempts := s.subAttempts + 1
         subscribed := os.success }

/-- A sequence of constructions, each with its own OS outcome. -/
def ctorSeq (oss : List SubscribeOutcome) (s : PALState) : PALState :=
  match oss with
  | [] => s
  | o :: rest => ctorSeq rest (ctor o s)

theorem ctor_of_registered (o : SubscribeOutcome) (s : PALState)
    (h : s.registered = true) : ctor o s = s := by
  simp [ctor, h]

theorem ctorSeq_of_registered (oss : List SubscribeOutcome) (s : PALState)
    (h : s.registered = true) : ctorSeq oss s = s := by
  induction oss with
  | nil => rfl
  | cons o rest ih =>
    simp [ctorSeq, ctor_of_registered o s h, ih]

theorem ctor_registered (o : SubscribeOutcome) (s : PALState) :
    (ctor o s).registered = true := by
  by_cases h : s.registered = true
  · simp [ctor, h]
  · have h' : s.registered = false := by simpa using h
    simp [ctor, h']

/-- C2: across any number of constructions of the PAL object, the one-time OS
subscription is performed exactly once: each construction performs a
subscription attempt exactly when it flips the flag from `false` to `true`,
and a sequence of N constructions from process start performs `min 1 N`
subscription attempts — exactly one as soon as N ≥ 1. -/
theorem subscription_exactly_once (oss : List SubscribeOutcome) :
    (ctorSeq oss initState).subAttempts = min 1 oss.length
    ∧ ∀ o s, (ctor o s).subAttempts =
        s.subAttempts + (if s.registered then 0 else 1) := by
  constructor
  · match oss with
    | [] => rfl
    | o :: rest =>
      have h2 := ctorSeq_of_registered rest (ctor o initState) (ctor_registered o initState)
      have h3 : ctorSeq (o :: rest) initState = ctor o initState := h2
      rw [h3]
      have h4 : (ctor o initState).subAttempts = 1 := rfl
      rw [h4]
      simp only [List.length_cons]
      omega
  · intro o s
    by_cases h : s.registered = true
    · simp [ctor, h]
    · have h' : s.registered = false := by simpa using h
      simp [ctor, h']

/-- C9: the registration flag is set by the exchange regardless of the OS
outcome and is never cleared; hence when the first construction's
subscription calls fail, no later construction ever retries: the attempt
count stays at one and the process remains unsubscribed forever. -/
theorem failed_subscription_is_permanent (o : SubscribeOutcome)
    (oss : List SubscribeOutcome) (hfail : o.success = false) :
    (∀ o' s, (ctor o' s).registered = true)
    ∧ (ctorSeq (o :: oss) initState).subAttempts = 1
    ∧ (ctorSeq (o :: oss) initState).subscribed = false := by
  have h2 := ctorSeq_of_registered oss (ctor o initState) (ctor_registered o initState)
  have h3 : ctorSeq (o :: oss) initState = ctor o initState := h2
  refine ⟨ctor_registered, ?_, ?_⟩
  · rw [h3]
    rfl
  · rw [h3]
    exact hfail

/-- Witness for C9: a failed first subscription followed by two further
constructions with a healthy OS still leaves one attempt and no
subscription. -/
theorem failed_subscription_is_permanent_witness :
    (⟨false⟩ : SubscribeOutcome).success = false
    ∧ ((∀ o' s, (ctor o' s).registered = true)
      ∧ (ctorSeq [⟨false⟩, ⟨true⟩, ⟨true⟩] initState).subAttempts = 1
      ∧ (ctorSeq [⟨false⟩, ⟨true⟩, ⟨true⟩] initState).subscribed = false) :=
  ⟨rfl, failed_subscription_is_permanent ⟨false⟩ [⟨true⟩, ⟨true⟩] rfl⟩

/-! ### The three reservation strategies -/

/-- Result of a `reserve` call as seen by the caller: a non-null pointer, the
null pointer surfaced to the caller, or a call to the fatal `error` handler
(which aborts, so the function never returns in that case). -/
inductive ReserveResult where
  | ok (p : Nat)
  | nullResult
  | fatal (msg : String)
deriving DecidableEq

def isFatal : ReserveResult → Bool
  | ReserveResult.fatal _ => true
  | _ => false

def isNull : ReserveResult → Bool
  | ReserveResult.nullResult => true
  | _ => false

def MEM_RESERVE : Nat := 0x2000

def MEM_COMMIT : Nat := 0x1000

def PAGE_READWRITE : Nat := 0x04

/-- `DWORD flags = MEM_RESERVE; if (committed) flags |= MEM_COMMIT;` -/
def reserveFlags (committed : Bool) : Nat :=
  if committed then MEM_RESERVE ||| MEM_COMMIT else MEM_RESERVE

/-- The retry loop of the Simulated (`USE_SYSTEMATIC_TESTING`) `reserve`:
`do { p = VirtualAlloc(cursor, ...); cursor += size; retries--; } while
(p == nullptr && retries > 0)`.  The OS answer to the i-th `VirtualAlloc`
attempt is `os i`; `fuel` is the number of attempts the loop may still
perform (1000 at entry; the `do`-`while` always performs at least one
attempt when entered with positive fuel).  Returns the final `p`, the final
bump cursor and the number of attempts performed. -/
def simLoop (os : Nat → Option Nat) (size : Nat) :
    Nat → Nat → Nat → Option Nat × Nat × Nat
  | 0, cursor, _attempt => (none, cursor, 0)
  | fuel + 1, cursor, attempt =>
    match os attempt with
    | some q => (some q, cursor + size, 1)
    | none =>
      let rest := simLoop os size fuel (cursor + size) (attempt + 1)
      (rest.1, rest.2.1, rest.2.2 + 1)

/-- `reserve<committed>` under `USE_SYSTEMATIC_TESTING`: run the retry loop
with `retries = 1000` starting at the current bump cursor; a null `p` after
the loop is returned to the caller as is. -/
def simReserve (os : Nat → Option Nat) (size cursor : Nat) :
    ReserveResult × Nat × Nat :=
  match simLoop os size 1000 cursor 0 with
  | (some p, c, n) => (ReserveResult.ok p, c, n)
  | (none, c, n) => (ReserveResult.nullResult, c, n)

/-- The platform-mandated alignment floor: `const size_t min_align = 64 * 1024`. -/
def min_align : Nat := 64 * 1024

/-- The argument record of the single `VirtualAlloc2FromApp` call issued by
the ExtendedAligned `reserve` (the alignment travels in the
`MEM_ADDRESS_REQUIREMENTS` extended parameter). -/
structure EACall where
  size : Nat
  flags : Nat
  pageProtection : Nat
  align : Nat
deriving DecidableEq

/-- `reserve<committed>(size, align)` under `PLATFORM_HAS_VIRTUALALLOC2`,
up to the OS call: `if (align < min_align) align = min_align;` then one
extended reservation call. -/
def eaCall (committed : Bool) (size align : Nat) : EACall :=
  { size := size
    flags := reserveFlags committed
    pageProtection := PAGE_READWRITE
    align := if align < min_align then min_align else align }

/-- The ExtendedAligned `reserve`: a null result from the OS goes to
`error("Failed to allocate memory\n")`, which aborts. -/
def eaReserve (os : EACall → Option Nat) (committed : Bool) (size align : Nat) :
    ReserveResult :=
  match os (eaCall committed size align) with
  | some p => ReserveResult.ok p
  | none => ReserveResult.fatal "Failed to allocate memory\n"

/-- The argument record of the `VirtualAlloc(nullptr, size, flags,
PAGE_READWRITE)` call issued by the Plain `reserve`. -/
structure PlainCall where
  size : Nat
  flags : Nat
  pageProtection : Nat
deriving DecidableEq

def plainCall (committed : Bool) (size : Nat) : PlainCall :=
  { size := size
    flags := reserveFlags committed
    pageProtection := PAGE_READWRITE }

/-- The Plain `reserve`: a null result from the OS goes to
`error("Failed to allocate memory\n")`, which aborts. -/
def plainReserve (os : PlainCall → Option Nat) (committed : Bool) (size : Nat) :
    ReserveResult :=
  match os (plainCall committed size) with
  | some p => ReserveResult.ok p
  | none => ReserveResult.fatal "Failed to allocate memory\n"

theorem simLoop_zero (os : Nat → Option Nat) (size cursor attempt : Nat) :
    simLoop os size 0 cursor attempt = (none, cursor, 0) := rfl

theorem simLoop_succ (os : Nat → Option Nat) (size cursor attempt f : Nat) :
    simLoop os size (f + 1) cursor attempt =
      match os attempt with
      | some q => (some q, cursor + size, 1)
      | none =>
        let rest := simLoop os size f (cursor + size) (attempt + 1)
        (rest.1, rest.2.1, rest.2.2 + 1) := rfl

theorem simLoop_spec (os : Nat → Option Nat) (size : Nat) :
    ∀ fuel cursor attempt,
      ((simLoop os size fuel cursor attempt).2.2 ≤ fuel)
      ∧ ((simLoop os size fuel cursor attempt).2.1 =
          cursor + (simLoop os size fuel cursor attempt).2.2 * size)
      ∧ ((simLoop os size fuel cursor attempt).1 = none →
          (simLoop os size fuel cursor attempt).2.2 = fuel)
      ∧ (1 ≤ fuel → 1 ≤ (simLoop os size fuel cursor attempt).2.2) := by
  intro fuel
  induction fuel with
  | zero =>
    intro cursor attempt
    refine ⟨?_, ?_, ?_, ?_⟩ <;> simp [simLoop_zero]
  | succ f ih =>
    intro cursor attempt
    cases hos : os attempt with
    | some q =>
      rw [simLoop_succ, hos]
      refine ⟨?_, ?_, ?_, ?_⟩
      · show (1 : Nat) ≤ f + 1
        omega
      · show cursor + size = cursor + 1 * size
        omega
      · intro hcon
        exact absurd hcon (by simp)
      · intro _
        show (1 : Nat) ≤ 1
        omega
    | none =>
      obtain ⟨ih1, ih2, ih3, ih4⟩ := ih (cursor + size) (attempt + 1)
      rw [simLoop_succ, hos]
      refine ⟨?_, ?_, ?_, ?_⟩
      · simpa using Nat.succ_le_succ ih1
      · show (simLoop os size f (cursor + size) (attempt + 1)).2.1 =
          cursor + ((simLoop os size f (cursor + size) (attempt + 1)).2.2 + 1) * size
        rw [ih2]
        ring
      · intro h
        show (simLoop os size f (cursor + size) (attempt + 1)).2.2 + 1 = f + 1
        rw [ih3 h]
      · intro _
        show 1 ≤ (simLoop os size f (cursor + size) (attempt + 1)).2.2 + 1
        omega

theorem simLoop_all_none (os : Nat → Option Nat) (size : Nat)
    (hos : ∀ i, os i = none) :
    ∀ fuel cursor attempt, (simLoop os size fuel cursor attempt).1 = none := by
  intro fuel
  induction fuel with
  | zero =>
    intro cursor attempt
    simp [simLoop_zero]
  | succ f ih =>
    intro cursor attempt
    rw [simLoop_succ, hos attempt]
    exact ih (cursor + size) (attempt + 1)

/-- C5: every Simulated `reserve(size)` performs between 1 and 1000 OS
attempts, advances the process-wide bump cursor by `size` after every
attempt regardless of the attempt's success (final cursor = initial cursor
plus attempts × size), and therefore terminates after a bounded number of
attempts; on a call that exhausts all retries the cursor has advanced by
exactly 1000 × size. -/
theorem simulated_reserve_bounded (os : Nat → Option Nat) (size cursor : Nat) :
    1 ≤ (simReserve os size cursor).2.2
    ∧ (simReserve os size cursor).2.2 ≤ 1000
    ∧ (simReserve os size cursor).2.1 =
        cursor + (simReserve os size cursor).2.2 * size
    ∧ ((simReserve os size cursor).1 = ReserveResult.nullResult →
        (simReserve os size cursor).2.2 = 1000
          ∧ (simReserve os size cursor).2.1 = cursor + 1000 * size) := by
  obtain ⟨h1, h2, h3, h4⟩ := simLoop_spec os size 1000 cursor 0
  rcases hres : simLoop os size 1000 cursor 0 with ⟨r, c, n⟩
  rw [hres] at h1 h2 h3 h4
  cases r with
  | some p =>
    have hsim : simReserve os size cursor = (ReserveResult.ok p, c, n) := by
      simp [simReserve, hres]
    rw [hsim]
    refine ⟨h4 (by omega), h1, h2, ?_⟩
    intro hcon
    cases hcon
  | none =>
    have hsim : simReserve os size cursor = (ReserveResult.nullResult, c, n) := by
      simp [simReserve, hres]
    rw [hsim]
    have hn : n = 1000 := h3 rfl
    refine ⟨h4 (by omega), h1, h2, ?_⟩
    intro _
    exact ⟨hn, by rw [h2, hn]⟩

set_option maxRecDepth 10000 in
/-- Witness for C5: an OS refusing every attempt exhausts all 1000 retries
and leaves the cursor advanced by exactly 1000 × size. -/
theorem simulated_reserve_bounded_witness :
    (simReserve (fun _ => none) 4 100).1 = ReserveResult.nullResult
    ∧ ((simReserve (fun _ => none) 4 100).2.2 = 1000
      ∧ (simReserve (fun _ => none) 4 100).2.1 = 100 + 1000 * 4) :=
  ⟨by decide, (simulated_reserve_bounded (fun _ => none) 4 100).2.2.2 (by decide)⟩

/-- C4: only the Simulated strategy can fail without invoking the fatal
error handler: its `reserve` never produces a fatal outcome and surfaces a
null result to the caller on retry exhaustion, whereas in the
ExtendedAligned and Plain strategies a reservation failure always invokes
the error handler (which terminates the process) and `reserve` never
returns null to the caller. -/
theorem simulated_only_nonfatal (os : Nat → Option Nat)
    (osEA : EACall → Option Nat) (osPlain : PlainCall → Option Nat)
    (committed : Bool) (size align cursor : Nat) :
    isFatal (simReserve os size cursor).1 = false
    ∧ ((∀ i, os i = none) →
        (simReserve os size cursor).1 = ReserveResult.nullResult)
    ∧ isNull (eaReserve osEA committed size align) = false
    ∧ (osEA (eaCall committed size align) = none →
        eaReserve osEA committed size align =
          ReserveResult.fatal "Failed to allocate memory\n")
    ∧ isNull (plainReserve osPlain committed size) = false
    ∧ (osPlain (plainCall committed size) = none →
        plainReserve osPlain committed size =
          ReserveResult.fatal "Failed to allocate memory\n") := by
  refine ⟨?_, ?_, ?_, ?_, ?_, ?_⟩
  · rcases hres : simLoop os size 1000 cursor 0 with ⟨r, c, n⟩
    cases r with
    | some p => simp [simReserve, hres, isFatal]
    | none => simp [simReserve, hres, isFatal]
  · intro hall
    have h := simLoop_all_none os size hall 1000 cursor 0
    rcases hres : simLoop os size 1000 cursor 0 with ⟨r, c, n⟩
    rw [hres] at h
    cases h
    simp [simReserve, hres]
  · cases hq : osEA (eaCall committed size align) with
    | some p => simp [eaReserve, hq, isNull]
    | none => simp [eaReserve, hq, isNull]
  · intro hq
    simp [eaReserve, hq]
  · cases hq : osPlain (plainCall committed size) with
    | some p => simp [plainReserve, hq, isNull]
    | none => simp [plainReserve, hq, isNull]
  · intro hq
    simp [plainReserve, hq]

set_option maxRecDepth 10000 in
/-- Witness for C4: exhaustion under an always-failing OS yields the null
result in the Simulated strategy, and an always-failing OS sends the other
two strategies to the fatal handler. -/
theorem simulated_only_nonfatal_witness :
    isFatal (simReserve (fun _ => none) 8 0).1 = false
    ∧ ((∀ i : Nat, (fun _ : Nat => (none : Option Nat)) i = none) →
        (simReserve (fun _ => none) 8 0).1 = ReserveResult.nullResult)
    ∧ isNull (eaReserve (fun _ => none) true 8 65536) = false
    ∧ ((fun _ : EACall => (none : Option Nat)) (eaCall true 8 65536) = none →
        eaReserve (fun _ => none) true 8 65536 =
          ReserveResult.fatal "Failed to allocate memory\n")
    ∧ isNull (plainReserve (fun _ => none) true 8) = false
    ∧ ((fun _ : PlainCall => (none : Option Nat)) (plainCall true 8) = none →
        plainReserve (fun _ => none) true 8 =
          ReserveResult.fatal "Failed to allocate memory\n") :=
  simulated_only_nonfatal (fun _ => none) (fun _ => none) (fun _ => none) true 8 65536 0

/-- C3: in the ExtendedAligned strategy, a requested alignment below 64 KiB
is raised to exactly 64 KiB, producing the identical underlying OS call to a
request of exactly 64 KiB, while alignments of at least 64 KiB are passed
through unchanged. -/
theorem ea_alignment_floor (committed : Bool) (size align : Nat)
    (h : align < min_align) :
    eaCall committed size align = eaCall committed size min_align
    ∧ (eaCall committed size align).align = min_align
    ∧ (∀ a, min_align ≤ a → (eaCall committed size a).align = a) := by
  refine ⟨?_, ?_, ?_⟩
  · simp [eaCall, h]
  · simp [eaCall, h]
  · intro a ha
    simp [eaCall, Nat.not_lt.mpr ha]

/-- Witness for C3: a 4 KiB alignment request produces the same call as a
64 KiB request. -/
theorem ea_alignment_floor_witness :
    4096 < min_align
    ∧ (eaCall true 65536 4096 = eaCall true 65536 min_align
      ∧ (eaCall true 65536 4096).align = min_align
      ∧ (∀ a, min_align ≤ a → (eaCall true 65536 a).align = a)) :=
  ⟨by decide, ea_alignment_floor true 65536 4096 (by decide)⟩

/-! ### Build configuration, capability flags and strategy selection -/

/-- `NTDDI_WIN10_RS5` from the Windows SDK headers. -/
def NTDDI_WIN10_RS5 : Nat := 0x0A000006

/-- `_WIN32_WINNT_WIN10` from the Windows SDK headers. -/
def WIN32_WINNT_WIN10 : Nat := 0x0A00

/-- The preprocessor environment the header is compiled under: whether the
SDK defines `NTDDI_WIN10_RS5` at all, the values of `NTDDI_VERSION` and
`WINVER`, and whether `USE_SYSTEMATIC_TESTING` is defined. -/
structure BuildConfig where
  rs5HeaderAvailable : Bool
  ntddiVersion : Nat
  winver : Nat
  useSystematicTesting : Bool

/-- The condition under which the source defines
`PLATFORM_HAS_VIRTUALALLOC2`: `#ifdef NTDDI_WIN10_RS5`, then
`(NTDDI_VERSION >= NTDDI_WIN10_RS5) && (WINVER >= _WIN32_WINNT_WIN10) &&
!defined(USE_SYSTEMATIC_TESTING)`. -/
def PLATFORM_HAS_VIRTUALALLOC2 (c : BuildConfig) : Bool :=
  c.rs5HeaderAvailable
    && decide (NTDDI_WIN10_RS5 ≤ c.ntddiVersion)
    && decide (WIN32_WINNT_WIN10 ≤ c.winver)
    && !c.useSystematicTesting

/-- Modelled from the spec: the named `PalFeatures` bits (defined in the
external PAL headers, not in the embedded file).  The spec only requires
them to be distinct named bits of the bitmask. -/
def LowMemoryNotification : Nat := 1

/-- Modelled from the spec: the explicit-alignment-reservation capability
bit, distinct from `LowMemoryNotification`. -/
def AlignedAllocation : Nat := 2

/-- `pal_features` from the source: always `LowMemoryNotification`, with
`AlignedAllocation` or-ed in exactly under `PLATFORM_HAS_VIRTUALALLOC2`. -/
def pal_features (c : BuildConfig) : Nat :=
  LowMemoryNotification |||
    (if PLATFORM_HAS_VIRTUALALLOC2 c then AlignedAllocation else 0)

/-- The three build-time reservation strategies. -/
inductive ReservationStrategy where
  | Simulated
  | ExtendedAligned
  | Plain
deriving DecidableEq

/-- The build-time strategy selection from the source:
`#ifdef USE_SYSTEMATIC_TESTING` picks the bump-cursor reserve,
`#elif defined(PLATFORM_HAS_VIRTUALALLOC2)` the extended-aligned reserve,
`#else` the plain reserve. -/
def strategy (c : BuildConfig) : ReservationStrategy :=
  if c.useSystematicTesting then ReservationStrategy.Simulated
  else if PLATFORM_HAS_VIRTUALALLOC2 c then ReservationStrategy.ExtendedAligned
  else ReservationStrategy.Plain

/-- C7: the capability bitmask is a build-time constant that always contains
the low-memory-notification bit, and contains the
explicit-alignment-reservation bit if and only if the build has the
extended-alignment API and is not a deterministic-testing build — which is
exactly when the ExtendedAligned strategy is the one compiled in. -/
theorem pal_features_characterization (c : BuildConfig) :
    pal_features c &&& LowMemoryNotification = LowMemoryNotification
    ∧ (pal_features c &&& AlignedAllocation = AlignedAllocation
        ↔ PLATFORM_HAS_VIRTUALALLOC2 c = true)
    ∧ (PLATFORM_HAS_VIRTUALALLOC2 c = true
        ↔ strategy c = ReservationStrategy.ExtendedAligned) := by
  by_cases h : PLATFORM_HAS_VIRTUALALLOC2 c = true
  · have hsys : c.useSystematicTesting = false := by
      have h' := h
      simp only [PLATFORM_HAS_VIRTUALALLOC2, Bool.and_eq_true,
        Bool.not_eq_true'] at h'
      exact h'.2
    refine ⟨?_, ?_, ?_⟩
    · simp [pal_features, h]
      decide
    · simp [pal_features, h]
      decide
    · simp [strategy, hsys, h]
  · have h' : PLATFORM_HAS_VIRTUALALLOC2 c = false := by simpa using h
    refine ⟨?_, ?_, ?_⟩
    · simp [pal_features, h']
    · simp [pal_features, h']
      decide
    · simp only [h', Bool.false_eq_true, false_iff]
      cases hsys : c.useSystematicTesting with
      | true =>
        simp [strategy, hsys]
      | false =>
        simp [strategy, hsys, h']

/-! ### The synchronous low-memory poll -/

/-- `expensive_low_memory_check` from the source:
`BOOL result; QueryMemoryResourceNotification(lowMemoryObject, &result);
return result;`.  The local `result` starts as an indeterminate stack value
`initResult`; the OS query is an oracle that on success writes the pressure
state into the out parameter and on failure (for example when
`lowMemoryObject` was never successfully created) leaves it untouched.  The
source never inspects the query's success return value. -/
def expensive_low_memory_check (initResult : Bool) (osQuery : Option Bool) : Bool :=
  match osQuery with
  | some v => v
  | none => initResult

/-- C10: `expensive_low_memory_check` returns the query's output parameter
unconditionally: on a successful query it returns the reported state
whatever the uninitialised local held, on a failed query it still returns a
boolean to the caller — namely the indeterminate initial value, so the
failure return is not a fixed error indication (both `true` and `false` are
obtainable). -/
theorem low_memory_check_unchecked :
    (∀ i v, expensive_low_memory_check i (some v) = v)
    ∧ (∀ i, expensive_low_memory_check i none = i)
    ∧ expensive_low_memory_check true none ≠ expensive_low_memory_check false none := by
  refine ⟨fun i v => rfl, fun i => rfl, by decide⟩
